import Mathlib

/-!
Shallow embedding of `pipf.py`, a single-file wrapper around pipenv.

The script's process environment (`os.environ`) is modelled as a lookup
function `String → Option String`; `None` models an unset variable.
Filesystem facts the script consults are passed in explicitly:
the list of directory names under the virtualenv storage root, the
contents of each environment's `.project` marker file, and whether the
current directory holds a `Pipfile`.  The module-level execution of the
script is modelled as a list of observable events (`pipf_main`); the
interactive-shell branch's effect on `os.environ` is modelled separately
by `shell_branch_final_env`, with the body of the `with temp_environ()`
block abstracted as an arbitrary environment transformer that may end
normally or with an exception.

Modelling conventions, each justified against the source:
* `Path.glob(envname + "*")` is modelled as a prefix filter over the
  storage root's directory names.  This is exact for glob patterns free
  of the metacharacters `*`, `?`, `[` (the predicate `globLiteral`),
  including glob's hidden-file rule: for a non-empty literal prefix,
  pattern and name agree on a leading dot.
* Python `exit()` raises `SystemExit(None)`, which terminates the
  process with exit status 0; `sys.exit(x)` with an integer gives that
  integer and with `None` gives 0 (`sys_exit_code`).
* `file.readline()` returns the first line *including* its trailing
  newline character (`readline` below).
* In the interactive branch the pexpect calls (`spawn`, `sendline`,
  `interact`) are modelled as succeeding; their own failure modes are
  outside the program text under study.
* The `subprocess.run` block at the bottom of the script is written at
  top level in the source, but every path through the interactive
  branch ends in `sys.exit` or an exception, so the block executes
  exactly when the non-interactive `else:` branch was taken; the model
  folds it into that branch.
-/

namespace Pipf

/-- Model of `os.environ`, as a lookup function; `none` models an unset variable. -/
abbrev EnvMap := String → Option String

/-- Model of `os.getenv(k)`. -/
def getenv (environ : EnvMap) (k : String) : Option String := environ k

/-- Python truthiness of an optional string (`None` and `""` are falsy). -/
def truthy : Option String → Bool
  | some s => decide (s ≠ "")
  | none => false

/-- Model of `os.environ[k] = v`. -/
def setItem (environ : EnvMap) (k v : String) : EnvMap :=
  fun k2 => if k2 = k then some v else environ k2

/-- Model of `os.environ.pop(k, None)`. -/
def popItem (environ : EnvMap) (k : String) : EnvMap :=
  fun k2 => if k2 = k then none else environ k2

/-- How the body of a `with` block ends: normally, or with an exception
(`SystemExit` from `sys.exit` included). -/
inductive BodyEnd where
  | normal
  | exn (e : String)
deriving DecidableEq

/-- Lines 24-33 of `pipf.py`: the `temp_environ` context manager.  It
snapshots `os.environ` (`environ = dict(os.environ)`), runs the body,
and in a `finally:` clause clears and restores the snapshot — whatever
environment the body produced and however the body ended, the resulting
environment is the snapshot. -/
def temp_environ {α : Type} (body : EnvMap → EnvMap × α) (environ : EnvMap) :
    EnvMap × α :=
  (environ, (body environ).2)

/-- The effect of the interactive-shell branch (lines 120-144) on
`os.environ`.  Lines 121-124 set `PIPENV_ACTIVE` to `"1"` and pop
`PIP_SHIMS_BASE_MODULE` *before* the `with temp_environ():` statement on
line 129 takes its snapshot; `body` abstracts lines 130-144 (which may
mutate the environment and may end normally or by exception). -/
def shell_branch_final_env (environ : EnvMap) (body : EnvMap → EnvMap × BodyEnd) :
    EnvMap :=
  let e2 := popItem (setItem environ "PIPENV_ACTIVE" "1") "PIP_SHIMS_BASE_MODULE"
  (temp_environ body e2).1

/-- A Python runtime value, as far as `is_pipenv_venv_active` needs:
`os.getenv` returns a `str` or `None`, and the function compares that
against the `int` literal `1`. -/
inductive PyVal where
  | vnone
  | vstr (s : String)
  | vint (n : Int)
deriving DecidableEq

/-- Python `==` on such values: values of different types (str vs int,
None vs int) are never equal. -/
def pyEq : PyVal → PyVal → Bool
  | .vstr a, .vstr b => a == b
  | .vint a, .vint b => a == b
  | .vnone, .vnone => true
  | _, _ => false

/-- Lines 70-74: `return os.getenv("PIPENV_ACTIVE") == 1` — the result of
`os.getenv` (a `str` or `None`) is compared with the integer `1`. -/
def is_pipenv_venv_active (environ : EnvMap) : Bool :=
  pyEq (match getenv environ "PIPENV_ACTIVE" with
        | some s => PyVal.vstr s
        | none => PyVal.vnone)
       (PyVal.vint 1)

/-- The value bound to `env_path` in `get_env_dir`: a `pathlib.Path` from
the glob branch, or the raw `str`/`None` returned by
`os.getenv("VIRTUAL_ENV")` in the no-name branch. -/
inductive PathVal where
  | path (p : String)
  | pystr (s : String)
  | pynone
deriving DecidableEq

/-- Python `str()` of such a value (`str(None) = "None"`). -/
def pyStrOfPath : PathVal → String
  | .path p => p
  | .pystr s => s
  | .pynone => "None"

/-- How a call in the script ends: a value, `print(msg)` followed by
`exit(status)`, or an uncaught exception. -/
inductive Outcome (α : Type) where
  | ok (a : α)
  | exitMsg (msg : String) (status : Nat)
  | raiseExc (e : String)
deriving DecidableEq

/-- Line 51 of the source. -/
def ambiguousMsg : String :=
  "More than one Env of the same name. Not currently supported."

/-- Lines 17-19 of the source. -/
def venvInProjectMsg : String :=
  "You have set the PIPENV_VENV_IN_PROJECT variable, so pipf can't find the environment locations. This is currently not supported"

/-- A string free of the glob metacharacters; for such an `envname` the
pattern `envname + "*"` matches exactly the names with that prefix. -/
def globLiteral (s : String) : Bool :=
  s.data.all (fun ch => !(ch == '*') && !(ch == '?') && !(ch == '['))

/-- Whether `s` starts with `pre`, decided character by character. -/
def beginsWith (pre s : String) : Bool :=
  pre.data.isPrefixOf s.data

/-- Observable events of one run of the script, in program order. -/
inductive Event where
  | print (msg : String)
  | parseArgs
  | warnPipfile
  | globRoot
  | readMarker (dir : String)
  | runProc (cmd : List String) (cwd : Option String)
  | setEnvVar (k v : String)
  | popEnvVar (k : String)
  | snapshotEnv
  | spawnShell
  | sendline (line : String)
  | setSigwinchHandler
  | interact
  | closePty
  | restoreEnv
  | exitWith (status : Nat)
  | raiseExc (e : String)
deriving DecidableEq

/-- Lines 36-55: `get_env_dir`.  With a falsy `envname` it returns
`os.getenv("VIRTUAL_ENV")` unchanged (a `str` or `None`, not a `Path`).
Otherwise it globs `envname + "*"` under the storage root (`rootDirs` is
the list of directory names there), exits after printing on more than
one match, raises `IndexError` on zero matches (`env_path[0]`), and
returns the single match as a `Path`.  The first component records the
events performed. -/
def get_env_dir (rootDirs : List String) (environ : EnvMap)
    (envname : Option String) : List Event × Outcome PathVal :=
  if truthy envname = false then
    ([], Outcome.ok (match getenv environ "VIRTUAL_ENV" with
         | some s => PathVal.pystr s
         | none => PathVal.pynone))
  else
    let s := envname.getD ""
    let env_path := rootDirs.filter (fun d => beginsWith s d)
    ([Event.globRoot],
     if env_path.length > 1 then Outcome.exitMsg ambiguousMsg 0
     else match env_path with
       | [] => Outcome.raiseExc "IndexError"
       | p :: _ => Outcome.ok (PathVal.path p))

/-- Model of `file.readline()` on the file's remaining characters: everything up
to and including the first newline (the whole string if none). -/
def readlineAux : List Char → List Char
  | [] => []
  | c :: cs => if c = '\n' then [c] else c :: readlineAux cs

/-- Model of `projfile.readline()` applied to the marker file's contents. -/
def readline (s : String) : String := String.mk (readlineAux s.data)

/-- Lines 58-67: `get_working_dir`.  Resolves the environment directory,
then opens `env_path / ".project"` and reads its first line.  When
`get_env_dir` returned a plain `str` or `None` (falsy `envname`), the
`/` operator is not defined on those types and Python raises
`TypeError`; a missing marker file raises `FileNotFoundError`.
`markers` maps an environment directory name to the contents of its
`.project` file, `none` when the file does not exist. -/
def get_working_dir (rootDirs : List String) (markers : String → Option String)
    (environ : EnvMap) (envname : Option String) : List Event × Outcome String :=
  match get_env_dir rootDirs environ envname with
  | (ev, Outcome.ok (PathVal.path p)) =>
    (ev ++ [Event.readMarker p],
     match markers p with
     | some contents => Outcome.ok (readline contents)
     | none => Outcome.raiseExc "FileNotFoundError")
  | (ev, Outcome.ok _) => (ev, Outcome.raiseExc "TypeError")
  | (ev, Outcome.exitMsg m st) => (ev, Outcome.exitMsg m st)
  | (ev, Outcome.raiseExc e) => (ev, Outcome.raiseExc e)

/-- Model of `sys.exit(status)` where `status` is `envshell.exitstatus`: an
integer exit status is used as the process exit code, `None` (child
killed by a signal) gives exit code 0. -/
def sys_exit_code (status : Option Nat) : Nat := status.getD 0

/-- One invocation of the script: its process environment, the directory
names under the resolved virtualenv storage root, the `.project` marker
files, whether the current directory contains a `Pipfile`, the parsed
`--name` value (`none` when absent) and positional `command` tokens
(argparse `nargs` guarantees at least one), and the exit status the
interactive subshell would report. -/
structure Config where
  environ : EnvMap
  rootDirs : List String
  markers : String → Option String
  pipfileInCwd : Bool
  name : Option String
  command : List String
  childStatus : Option Nat

/-- Lines 120-144: the interactive-shell branch.  Sets `PIPENV_ACTIVE`,
pops `PIP_SHIMS_BASE_MODULE`, enters `temp_environ` (snapshot), spawns
`$SHELL -i`, sends the `source .../bin/activate` line built from
`get_env_dir(args.name)` (which can itself print-and-exit or raise),
installs the SIGWINCH handler, relays interactively, closes the pty and
exits with the child's status.  The environment restore of
`temp_environ`'s `finally:` runs on every path. -/
def shellBranch (c : Config) : List Event :=
  [Event.setEnvVar "PIPENV_ACTIVE" "1", Event.popEnvVar "PIP_SHIMS_BASE_MODULE",
   Event.snapshotEnv, Event.spawnShell] ++
  (match get_env_dir c.rootDirs
      (popItem (setItem c.environ "PIPENV_ACTIVE" "1") "PIP_SHIMS_BASE_MODULE")
      c.name with
   | (ev, Outcome.ok v) =>
     ev ++ [Event.sendline ("source " ++ pyStrOfPath v ++ "/bin/activate"),
            Event.setSigwinchHandler, Event.interact, Event.closePty,
            Event.restoreEnv, Event.exitWith (sys_exit_code c.childStatus)]
   | (ev, Outcome.exitMsg m st) =>
     ev ++ [Event.print m, Event.restoreEnv, Event.exitWith st]
   | (ev, Outcome.raiseExc e) => ev ++ [Event.restoreEnv, Event.raiseExc e])

/-- Lines 146-153: build `cmd = ["pipenv"] + args.command` and run it,
with `cwd=get_working_dir(args.name)` unless the script decided it was
already launched from the correct directory. -/
def forwardBranch (c : Config) (in_correct_dir : Bool) : List Event :=
  if in_correct_dir then
    [Event.runProc ("pipenv" :: c.command) none]
  else
    match get_working_dir c.rootDirs c.markers c.environ c.name with
    | (ev, Outcome.ok wd) => ev ++ [Event.runProc ("pipenv" :: c.command) (some wd)]
    | (ev, Outcome.exitMsg m st) => ev ++ [Event.print m, Event.exitWith st]
    | (ev, Outcome.raiseExc e) => ev ++ [Event.raiseExc e]

/-- Line 120: `if args.command[0] == "shell" and args.name:`. -/
def dispatch (c : Config) (in_correct_dir : Bool) : List Event :=
  if (c.command.head? == some "shell") && truthy c.name then
    shellBranch c
  else
    forwardBranch c in_correct_dir

/-- Module-level execution of `pipf.py`: the `PIPENV_VENV_IN_PROJECT`
guard (lines 16-20) runs before argument parsing (line 102); then the
Pipfile check (lines 105-116) computes `in_correct_dir` or raises
`EnvironmentError`; then the dispatch on line 120. -/
def pipf_main (c : Config) : List Event :=
  if truthy (getenv c.environ "PIPENV_VENV_IN_PROJECT") then
    [Event.print venvInProjectMsg, Event.exitWith 0]
  else
    Event.parseArgs ::
    (if !(is_pipenv_venv_active c.environ) && !(truthy c.name) then
       if c.pipfileInCwd then Event.warnPipfile :: dispatch c true
       else [Event.raiseExc "EnvironmentError"]
     else dispatch c false)

/-! ### Helper lemmas -/

/-- The function `is_pipenv_venv_active` compares a `str`/`None` with the `int` `1`,
so it is identically `false`. -/
lemma is_pipenv_venv_active_eq_false (environ : EnvMap) :
    is_pipenv_venv_active environ = false := by
  unfold is_pipenv_venv_active getenv
  cases environ "PIPENV_ACTIVE" <;> rfl

lemma truthy_some (s : String) (h : s ≠ "") : truthy (some s) = true := by
  simp [truthy, h]

/-- The manager `temp_environ` restores the snapshot whatever the body did. -/
lemma temp_environ_fst {α : Type} (body : EnvMap → EnvMap × α) (environ : EnvMap) :
    (temp_environ body environ).1 = environ := rfl

lemma readlineAux_no_newline (l : List Char) (h : '\n' ∉ l) :
    readlineAux (l ++ ['\n']) = l ++ ['\n'] := by
  induction l with
  | nil => simp [readlineAux]
  | cons c cs ih =>
    simp only [List.mem_cons, not_or] at h
    have hc : ¬ c = '\n' := fun e => h.1 e.symm
    simp [readlineAux, hc, ih h.2]

/-- A marker file holding a single newline-terminated line is returned
by `readline` unchanged — the trailing newline is kept. -/
lemma readline_single_line (contents w : String)
    (hdata : contents.data = w.data ++ ['\n']) (hw : '\n' ∉ w.data) :
    readline contents = contents := by
  unfold readline
  rw [hdata, readlineAux_no_newline w.data hw, ← hdata]

lemma get_env_dir_fst (rootDirs : List String) (environ : EnvMap)
    (envname : Option String) :
    (get_env_dir rootDirs environ envname).1 = [] ∨
    (get_env_dir rootDirs environ envname).1 = [Event.globRoot] := by
  unfold get_env_dir
  split
  · left; rfl
  · right; rfl

lemma get_working_dir_fst (rootDirs : List String) (markers : String → Option String)
    (environ : EnvMap) (envname : Option String) :
    ∀ e ∈ (get_working_dir rootDirs markers environ envname).1,
      e = Event.globRoot ∨ ∃ p, e = Event.readMarker p := by
  intro e he
  unfold get_working_dir at he
  have hev := get_env_dir_fst rootDirs environ envname
  rcases hg : get_env_dir rootDirs environ envname with ⟨ev, r⟩
  rw [hg] at hev he
  rcases r with v | ⟨m, st⟩ | ex
  · rcases v with p | s | _ <;> simp only [] at he <;>
      rcases hev with h | h <;> subst h <;> simp at he <;> tauto
  · simp only [] at he
    rcases hev with h | h <;> subst h <;> simp at he
    exact Or.inl he
  · simp only [] at he
    rcases hev with h | h <;> subst h <;> simp at he
    exact Or.inl he

/-- The forwarding branch never spawns the interactive subshell. -/
lemma spawnShell_not_mem_forwardBranch (c : Config) (b : Bool) :
    Event.spawnShell ∉ forwardBranch c b := by
  intro hmem
  unfold forwardBranch at hmem
  split at hmem
  · simp at hmem
  · have hfst := get_working_dir_fst c.rootDirs c.markers c.environ c.name
    rcases hw : get_working_dir c.rootDirs c.markers c.environ c.name with ⟨ev, r⟩
    rw [hw] at hfst hmem
    rcases r with wd | ⟨m, st⟩ | ex <;> simp only [] at hmem <;>
      rcases List.mem_append.mp hmem with h | h
    · rcases hfst _ h with h1 | ⟨p, h1⟩ <;> exact absurd h1 (by simp)
    · simp at h
    · rcases hfst _ h with h1 | ⟨p, h1⟩ <;> exact absurd h1 (by simp)
    · simp at h
    · rcases hfst _ h with h1 | ⟨p, h1⟩ <;> exact absurd h1 (by simp)
    · simp at h

/-- The interactive branch always records the subshell spawn. -/
lemma spawnShell_mem_shellBranch (c : Config) :
    Event.spawnShell ∈ shellBranch c := by
  unfold shellBranch
  simp

/-! ### C10 — the active-environment detector is identically false -/

/-- C10.  For every process environment, including one where
`PIPENV_ACTIVE` is set to the string `"1"`, `is_pipenv_venv_active`
returns `False`: it compares the `str`-or-`None` result of
`os.getenv("PIPENV_ACTIVE")` for equality with the integer `1`, so the
active-environment detection never reports an active environment. -/
theorem active_detection_always_false :
    (∀ environ : EnvMap, is_pipenv_venv_active environ = false) ∧
    is_pipenv_venv_active
      (fun k => if k = "PIPENV_ACTIVE" then some "1" else none) = false :=
  ⟨is_pipenv_venv_active_eq_false, is_pipenv_venv_active_eq_false _⟩

/-! ### C4 — the VIRTUAL_ENV path is never taken (code bug) -/

/-- Environment of an invocation inside an activated pipenv shell:
`PIPENV_ACTIVE=1` and `VIRTUAL_ENV` point at the environment. -/
def c4_environ : EnvMap := fun k =>
  if k = "PIPENV_ACTIVE" then some "1"
  else if k = "VIRTUAL_ENV" then some "/home/u/.local/share/virtualenvs/proj-abc"
  else none

/-- Invocation `pipf install` inside an activated environment, launched from a
directory without a `Pipfile`. -/
def c4_cfg : Config :=
  { environ := c4_environ
    rootDirs := ["proj-abc"]
    markers := fun p => if p = "proj-abc" then some "/home/u/proj" else none
    pipfileInCwd := false
    name := none
    command := ["install"]
    childStatus := none }

/-- Same invocation, but launched from a directory with a `Pipfile`. -/
def c4_cfg2 : Config :=
  { c4_cfg with pipfileInCwd := true }

/-- C4 (code bug exhibit).  With no `--name` and `PIPENV_ACTIVE=1` set,
the script never takes the environment path from `VIRTUAL_ENV`: because
`is_pipenv_venv_active` compares against the integer `1` and is always
`False`, the run either raises `EnvironmentError` (no `Pipfile` in the
current directory) or performs the Pipfile lookup and uses the current
directory unchanged — contradicting the function's own docstring
("Basically just returns the PIPENV_ACTIVE environment variable"). -/
theorem active_env_never_uses_virtual_env :
    is_pipenv_venv_active c4_cfg.environ = false ∧
    pipf_main c4_cfg = [Event.parseArgs, Event.raiseExc "EnvironmentError"] ∧
    pipf_main c4_cfg2 = [Event.parseArgs, Event.warnPipfile,
      Event.runProc ["pipenv", "install"] none] := by
  refine ⟨is_pipenv_venv_active_eq_false _, ?_, ?_⟩ <;> decide

/-! ### C1 — environment restore around the interactive branch -/

/-- Pre-branch environment of the counterexample: the legacy variable is
present, the active-environment flag is not. -/
def c1_env0 : EnvMap :=
  fun k => if k = "PIP_SHIMS_BASE_MODULE" then some "x" else none

/-- A body for the `with temp_environ():` block that mutates nothing and
ends in `SystemExit` (the `sys.exit` on line 144). -/
def c1_body0 : EnvMap → EnvMap × BodyEnd :=
  fun e => (e, BodyEnd.exn "SystemExit")

/-- C1 counterexample.  The two mutations made for the subshell are made
*before* `temp_environ` takes its snapshot (lines 121-124 precede the
`with` on line 129), so they survive the branch: afterwards
`PIPENV_ACTIVE` is `"1"` (it was unset before) and
`PIP_SHIMS_BASE_MODULE` is gone (it was `"x"` before).  The environment
after the branch is not byte-for-byte the environment before it. -/
theorem shell_branch_env_leak_cex :
    getenv (shell_branch_final_env c1_env0 c1_body0) "PIPENV_ACTIVE" = some "1" ∧
    getenv c1_env0 "PIPENV_ACTIVE" = none ∧
    getenv (shell_branch_final_env c1_env0 c1_body0) "PIP_SHIMS_BASE_MODULE" = none ∧
    getenv c1_env0 "PIP_SHIMS_BASE_MODULE" = some "x" := by
  decide

/-- C1 amended.  Whether the `with` body ends normally or by exception,
the environment after the interactive branch equals the snapshot taken
at entry to the `with temp_environ():` block — the pre-branch
environment with `PIPENV_ACTIVE` set to `"1"` and
`PIP_SHIMS_BASE_MODULE` removed.  Those two pre-snapshot mutations leak
out of the branch; every variable other than those two is unchanged, so
nothing mutated inside the `with` block escapes. -/
theorem shell_branch_env_restores_snapshot (environ : EnvMap)
    (body : EnvMap → EnvMap × BodyEnd) :
    shell_branch_final_env environ body
      = popItem (setItem environ "PIPENV_ACTIVE" "1") "PIP_SHIMS_BASE_MODULE" ∧
    (∀ k, k ≠ "PIPENV_ACTIVE" → k ≠ "PIP_SHIMS_BASE_MODULE" →
      getenv (shell_branch_final_env environ body) k = getenv environ k) ∧
    getenv (shell_branch_final_env environ body) "PIPENV_ACTIVE" = some "1" := by
  refine ⟨rfl, ?_, rfl⟩
  intro k h1 h2
  simp [shell_branch_final_env, temp_environ, popItem, setItem, getenv, h1, h2]

/-- Witness for the amended C1: concretely, the branch leaves `HOME`
exactly as it was. -/
theorem shell_branch_env_restores_snapshot_witness :
    getenv (shell_branch_final_env
      (fun k => if k = "HOME" then some "/root" else none) c1_body0) "HOME"
      = getenv (fun k => if k = "HOME" then some "/root" else none) "HOME" :=
  (shell_branch_env_restores_snapshot
      (fun k => if k = "HOME" then some "/root" else none) c1_body0).2.1
    "HOME" (by decide) (by decide)

/-! ### C2 — the working-directory resolver keeps the trailing newline -/

/-- Marker files for the C2 counterexample: environment directory
`proj-1` with `.project` containing a newline-terminated path. -/
def c2_markers : String → Option String :=
  fun p => if p = "proj-1" then some "/home/u/proj\n" else none

/-- C2 counterexample.  For the marker file `"/home/u/proj\n"`,
`get_working_dir` returns `"/home/u/proj\n"` — `readline()` keeps the
trailing newline — and not the stripped path `"/home/u/proj"`. -/
theorem working_dir_newline_cex :
    (get_working_dir ["proj-1"] c2_markers (fun _ => none) (some "proj")).2
      = Outcome.ok "/home/u/proj\n" ∧
    (get_working_dir ["proj-1"] c2_markers (fun _ => none) (some "proj")).2
      ≠ Outcome.ok "/home/u/proj" := by
  decide

/-- C2 amended.  For every marker file whose first line is a path
followed by a trailing newline, `get_working_dir` returns the whole
first line including the trailing newline (Python's `readline()` does
not strip it), not the newline-stripped path. -/
theorem get_working_dir_returns_full_line (c : Config) (s p w contents : String)
    (hn : c.name = some s) (hs : s ≠ "") (_hg : globLiteral s = true)
    (hfilter : c.rootDirs.filter (fun d => beginsWith s d) = [p])
    (hm : c.markers p = some contents)
    (hdata : contents.data = w.data ++ ['\n'])
    (hw : '\n' ∉ w.data) :
    (get_working_dir c.rootDirs c.markers c.environ c.name).2 = Outcome.ok contents ∧
    (get_working_dir c.rootDirs c.markers c.environ c.name).2 ≠ Outcome.ok w := by
  have hge : get_env_dir c.rootDirs c.environ c.name
      = ([Event.globRoot], Outcome.ok (PathVal.path p)) := by
    unfold get_env_dir
    rw [hn, truthy_some s hs]
    simp [hfilter]
  have hok : (get_working_dir c.rootDirs c.markers c.environ c.name).2
      = Outcome.ok contents := by
    unfold get_working_dir
    rw [hge]
    simp [hm, readline_single_line contents w hdata hw]
  refine ⟨hok, ?_⟩
  rw [hok]
  intro hcon
  have hcw : contents = w := by injection hcon
  rw [hcw] at hdata
  have := congrArg List.length hdata
  simp at this

/-- Witness for the amended C2: the spec's own example input. -/
theorem get_working_dir_returns_full_line_witness :
    (get_working_dir ["proj-1"] c2_markers (fun _ => none) (some "proj")).2
      = Outcome.ok "/home/u/proj\n" ∧
    (get_working_dir ["proj-1"] c2_markers (fun _ => none) (some "proj")).2
      ≠ Outcome.ok "/home/u/proj" :=
  get_working_dir_returns_full_line
    { environ := fun _ => none, rootDirs := ["proj-1"], markers := c2_markers,
      pipfileInCwd := false, name := some "proj", command := ["install"],
      childStatus := none }
    "proj" "proj-1" "/home/u/proj" "/home/u/proj\n"
    rfl (by decide) (by decide) (by decide) (by decide) (by decide) (by decide)

/-! ### C3 — ambiguous environment names -/

/-- Invocation `pipf -n env1 install` with two environments matching the prefix. -/
def c3_cfg : Config :=
  { environ := fun _ => none
    rootDirs := ["env1-a", "env1-b"]
    markers := fun _ => none
    pipfileInCwd := false
    name := some "env1"
    command := ["install"]
    childStatus := none }

/-- C3 counterexample.  With two matching directories the script prints
the ambiguity message and exits — but `exit()` with no argument raises
`SystemExit(None)`, which terminates the process with exit status 0,
not a nonzero failure status. -/
theorem ambiguous_exit_status_zero_cex :
    pipf_main c3_cfg = [Event.parseArgs, Event.globRoot,
      Event.print ambiguousMsg, Event.exitWith 0] ∧
    ¬ (∃ n, Event.exitWith n ∈ pipf_main c3_cfg ∧ n ≠ 0) := by
  have ht : pipf_main c3_cfg = [Event.parseArgs, Event.globRoot,
      Event.print ambiguousMsg, Event.exitWith 0] := by decide
  refine ⟨ht, ?_⟩
  rintro ⟨n, hn, hne⟩
  rw [ht] at hn
  simp at hn
  exact hne hn

/-- C3 amended.  For every storage root containing two or more
directories whose names start with the given (non-empty, glob-literal)
environment name, the locator prints the ambiguity message and the
process exits with exit status 0 (the default status of Python's
argument-less `exit()`), without attempting any disambiguation. -/
theorem ambiguous_name_prints_and_exits (c : Config) (s : String)
    (hv : truthy (getenv c.environ "PIPENV_VENV_IN_PROJECT") = false)
    (hn : c.name = some s) (hs : s ≠ "") (_hg : globLiteral s = true)
    (hlen : 2 ≤ (c.rootDirs.filter (fun d => beginsWith s d)).length)
    (hcmd : c.command.head? ≠ some "shell") :
    get_env_dir c.rootDirs c.environ c.name
      = ([Event.globRoot], Outcome.exitMsg ambiguousMsg 0) ∧
    pipf_main c = [Event.parseArgs, Event.globRoot,
      Event.print ambiguousMsg, Event.exitWith 0] := by
  have hge : get_env_dir c.rootDirs c.environ c.name
      = ([Event.globRoot], Outcome.exitMsg ambiguousMsg 0) := by
    unfold get_env_dir
    rw [hn, truthy_some s hs]
    have h1 : 1 < (c.rootDirs.filter (fun d => beginsWith s d)).length := hlen
    simp [h1]
  refine ⟨hge, ?_⟩
  have hgw : get_working_dir c.rootDirs c.markers c.environ c.name
      = ([Event.globRoot], Outcome.exitMsg ambiguousMsg 0) := by
    unfold get_working_dir
    rw [hge]
  have hbeq : (c.command.head? == some "shell") = false := by
    simpa using hcmd
  rw [hn] at hgw
  simp [pipf_main, hv, is_pipenv_venv_active_eq_false, hn, truthy_some s hs,
    dispatch, hbeq, forwardBranch, hgw]

/-- Witness for the amended C3. -/
theorem ambiguous_name_prints_and_exits_witness :
    get_env_dir c3_cfg.rootDirs c3_cfg.environ c3_cfg.name
      = ([Event.globRoot], Outcome.exitMsg ambiguousMsg 0) ∧
    pipf_main c3_cfg = [Event.parseArgs, Event.globRoot,
      Event.print ambiguousMsg, Event.exitWith 0] :=
  ambiguous_name_prints_and_exits c3_cfg "env1"
    (by decide) rfl (by decide) (by decide) (by decide) (by decide)

/-! ### C7 — zero matching environments -/

/-- C7.  For every storage root containing zero directories whose names
start with the given (non-empty, glob-literal) environment name, the
locator fails with an unhandled `IndexError` from `env_path[0]` —
uncaught and without a friendly message — rather than returning a path
or reporting a handled error; the run ends in that uncaught exception. -/
theorem locator_zero_matches_raises (c : Config) (s : String)
    (hv : truthy (getenv c.environ "PIPENV_VENV_IN_PROJECT") = false)
    (hn : c.name = some s) (hs : s ≠ "") (_hg : globLiteral s = true)
    (hfilter : c.rootDirs.filter (fun d => beginsWith s d) = [])
    (hcmd : c.command.head? ≠ some "shell") :
    (get_env_dir c.rootDirs c.environ c.name).2 = Outcome.raiseExc "IndexError" ∧
    pipf_main c = [Event.parseArgs, Event.globRoot, Event.raiseExc "IndexError"] := by
  have hge : get_env_dir c.rootDirs c.environ c.name
      = ([Event.globRoot], Outcome.raiseExc "IndexError") := by
    unfold get_env_dir
    rw [hn, truthy_some s hs]
    simp [hfilter]
  have hgw : get_working_dir c.rootDirs c.markers c.environ c.name
      = ([Event.globRoot], Outcome.raiseExc "IndexError") := by
    unfold get_working_dir
    rw [hge]
  have hbeq : (c.command.head? == some "shell") = false := by
    simpa using hcmd
  rw [hn] at hgw
  refine ⟨by rw [hge], ?_⟩
  simp [pipf_main, hv, is_pipenv_venv_active_eq_false, hn, truthy_some s hs,
    dispatch, hbeq, forwardBranch, hgw]

/-- Invocation `pipf -n ghost install` with an empty storage root. -/
def c7_cfg : Config :=
  { environ := fun _ => none
    rootDirs := []
    markers := fun _ => none
    pipfileInCwd := false
    name := some "ghost"
    command := ["install"]
    childStatus := none }

/-- Witness for C7. -/
theorem locator_zero_matches_raises_witness :
    (get_env_dir c7_cfg.rootDirs c7_cfg.environ c7_cfg.name).2
      = Outcome.raiseExc "IndexError" ∧
    pipf_main c7_cfg = [Event.parseArgs, Event.globRoot,
      Event.raiseExc "IndexError"] :=
  locator_zero_matches_raises c7_cfg "ghost"
    (by decide) rfl (by decide) (by decide) (by decide) (by decide)

/-! ### C9 — the PIPENV_VENV_IN_PROJECT guard -/

/-- Environment with `PIPENV_VENV_IN_PROJECT` set to the *empty* string; a name is given
and one environment matches. -/
def c9_cfg : Config :=
  { environ := fun k => if k = "PIPENV_VENV_IN_PROJECT" then some "" else none
    rootDirs := ["proj-x"]
    markers := fun p => if p = "proj-x" then some "/home/u/proj" else none
    pipfileInCwd := false
    name := some "proj"
    command := ["install"]
    childStatus := none }

/-- C9 counterexample.  With `PIPENV_VENV_IN_PROJECT` set (but set to the
empty string, which is falsy in Python), the guard does not fire: no
message is printed, the run parses arguments, resolves the environment
and forwards the command. -/
theorem venv_in_project_empty_ignored_cex :
    getenv c9_cfg.environ "PIPENV_VENV_IN_PROJECT" = some "" ∧
    Event.print venvInProjectMsg ∉ pipf_main c9_cfg ∧
    pipf_main c9_cfg = [Event.parseArgs, Event.globRoot, Event.readMarker "proj-x",
      Event.runProc ["pipenv", "install"] (some "/home/u/proj")] := by
  refine ⟨rfl, ?_, by decide⟩
  decide

/-- C9 amended.  For every invocation in which `PIPENV_VENV_IN_PROJECT`
is set to a non-empty (truthy) value, the process prints the message and
terminates with exit status 0 before argument parsing and before any
environment resolution (no directory glob, no marker-file read),
regardless of the other arguments supplied; a value of `""` is falsy and
the guard is skipped. -/
theorem venv_in_project_aborts_first (c : Config) (v : String)
    (h1 : getenv c.environ "PIPENV_VENV_IN_PROJECT" = some v) (h2 : v ≠ "") :
    pipf_main c = [Event.print venvInProjectMsg, Event.exitWith 0] ∧
    Event.parseArgs ∉ pipf_main c ∧
    Event.globRoot ∉ pipf_main c ∧
    (∀ p, Event.readMarker p ∉ pipf_main c) := by
  have ht : pipf_main c = [Event.print venvInProjectMsg, Event.exitWith 0] := by
    unfold pipf_main
    rw [h1, truthy_some v h2]
    simp
  refine ⟨ht, ?_, ?_, ?_⟩ <;> rw [ht] <;> simp

/-- Witness for the amended C9: the variable set to `"1"` aborts the run
even though a name, a matching environment and a command are present. -/
theorem venv_in_project_aborts_first_witness :
    pipf_main { c9_cfg with
        environ := fun k => if k = "PIPENV_VENV_IN_PROJECT" then some "1" else none }
      = [Event.print venvInProjectMsg, Event.exitWith 0] :=
  (venv_in_project_aborts_first _ "1" (by decide) (by decide)).1

/-! ### C5 — when the interactive branch is taken -/

/-- Invocation `pipf --name "" shell` launched from a directory with a `Pipfile`:
`--name` is explicitly supplied, but its value is falsy. -/
def c5_cfg : Config :=
  { environ := fun _ => none
    rootDirs := []
    markers := fun _ => none
    pipfileInCwd := true
    name := some ""
    command := ["shell"]
    childStatus := none }

/-- Invocation `pipf shell` with no `--name` from a directory without a `Pipfile`. -/
def c5_cfg2 : Config :=
  { c5_cfg with pipfileInCwd := false, name := none }

/-- C5 counterexample.  Line 120 tests the *truthiness* of `args.name`,
not whether it was supplied: with `--name ""` and command `["shell"]`
the name is explicitly supplied and the first token is `"shell"`, yet
the interactive branch is not entered (the run forwards to pipenv).
Moreover with no `--name` and no `Pipfile` the run raises
`EnvironmentError` on line 114 and never reaches the forwarding branch. -/
theorem shell_branch_supplied_name_cex :
    c5_cfg.command.head? = some "shell" ∧
    c5_cfg.name.isSome = true ∧
    Event.spawnShell ∉ pipf_main c5_cfg ∧
    pipf_main c5_cfg = [Event.parseArgs, Event.warnPipfile,
      Event.runProc ["pipenv", "shell"] none] ∧
    pipf_main c5_cfg2 = [Event.parseArgs, Event.raiseExc "EnvironmentError"] := by
  refine ⟨rfl, rfl, ?_, by decide, by decide⟩
  decide

/-- C5 amended.  The interactive-shell branch is taken if and only if the
first forwarded token is exactly `"shell"` and a *non-empty* `--name`
was supplied (line 120 tests `args.name` for truthiness); with command
`["shell"]` and a falsy name, when a `Pipfile` is present so the run
proceeds, it falls through to the forwarding branch. -/
theorem shell_branch_condition_iff (c : Config)
    (_hne : c.command ≠ [])
    (hv : truthy (getenv c.environ "PIPENV_VENV_IN_PROJECT") = false) :
    (Event.spawnShell ∈ pipf_main c ↔
      (c.command.head? = some "shell" ∧ truthy c.name = true)) ∧
    (c.command.head? = some "shell" → truthy c.name = false →
      c.pipfileInCwd = true →
      pipf_main c = [Event.parseArgs, Event.warnPipfile,
        Event.runProc ("pipenv" :: c.command) none]) := by
  have hact := is_pipenv_venv_active_eq_false c.environ
  have hbody : pipf_main c =
      Event.parseArgs ::
      (if !(is_pipenv_venv_active c.environ) && !(truthy c.name) then
         if c.pipfileInCwd then Event.warnPipfile :: dispatch c true
         else [Event.raiseExc "EnvironmentError"]
       else dispatch c false) := by
    rw [pipf_main, hv]
    simp
  constructor
  · rw [hbody, hact]
    cases htn : truthy c.name with
    | false =>
      cases hpip : c.pipfileInCwd with
      | true =>
        simp only [Bool.not_false, Bool.and_self, if_true, List.mem_cons]
        rw [dispatch, htn]
        simp [spawnShell_not_mem_forwardBranch c true]
      | false =>
        simp
    | true =>
      simp only [Bool.not_false, Bool.not_true, Bool.and_false,
        Bool.false_eq_true, if_false, List.mem_cons]
      rw [dispatch, htn]
      cases hh : (c.command.head? == some "shell") with
      | true =>
        have hsh : c.command.head? = some "shell" := by simpa using hh
        simp [spawnShell_mem_shellBranch c, hsh]
      | false =>
        have hsh : c.command.head? ≠ some "shell" := by simpa using hh
        simp [spawnShell_not_mem_forwardBranch c false, hsh]
  · intro hsh htn hpip
    rw [hbody, hact, htn, hpip]
    simp only [Bool.not_false, Bool.and_self, if_true]
    rw [dispatch, htn]
    simp [forwardBranch]

/-- Witness for the amended C5: a truthy name and command `["shell"]`
enter the branch, and the fall-through case produces the forwarding
trace. -/
theorem shell_branch_condition_iff_witness :
    (Event.spawnShell ∈ pipf_main
        { c5_cfg with name := some "proj", rootDirs := ["proj-x"] } ↔
      (["shell"].head? = some "shell" ∧ truthy (some "proj") = true)) ∧
    pipf_main c5_cfg = [Event.parseArgs, Event.warnPipfile,
      Event.runProc ["pipenv", "shell"] none] :=
  ⟨((shell_branch_condition_iff
      { c5_cfg with name := some "proj", rootDirs := ["proj-x"] }
      (by decide) (by decide)).1),
   (shell_branch_condition_iff c5_cfg (by decide) (by decide)).2
     rfl (by decide) rfl⟩

/-! ### C6 — the forward branch -/

/-- C6.  In the forward branch the child process is run with argument
list `["pipenv"] ++ command` (the forwarded tokens in order).  With a
truthy `--name` and a unique glob match whose marker file exists, its
working directory is the resolved marker-file contents (the first line
as returned by the resolver).  When the tool was launched from a
directory containing a `Pipfile` with no (truthy) name — and no active
environment, the detector being identically false — the current
directory is used unchanged (`cwd` argument absent). -/
theorem forward_branch_runs_pipenv (c : Config) (s p contents : String)
    (hv : truthy (getenv c.environ "PIPENV_VENV_IN_PROJECT") = false) :
    (c.name = some s → s ≠ "" → globLiteral s = true →
     c.command.head? ≠ some "shell" →
     c.rootDirs.filter (fun d => beginsWith s d) = [p] →
     c.markers p = some contents →
     pipf_main c = [Event.parseArgs, Event.globRoot, Event.readMarker p,
       Event.runProc ("pipenv" :: c.command) (some (readline contents))]) ∧
    (truthy c.name = false → is_pipenv_venv_active c.environ = false →
     c.pipfileInCwd = true →
     pipf_main c = [Event.parseArgs, Event.warnPipfile,
       Event.runProc ("pipenv" :: c.command) none]) := by
  constructor
  · intro hn hs _hg hcmd hfilter hm
    have hge : get_env_dir c.rootDirs c.environ c.name
        = ([Event.globRoot], Outcome.ok (PathVal.path p)) := by
      unfold get_env_dir
      rw [hn, truthy_some s hs]
      simp [hfilter]
    have hgw : get_working_dir c.rootDirs c.markers c.environ c.name
        = ([Event.globRoot, Event.readMarker p],
           Outcome.ok (readline contents)) := by
      unfold get_working_dir
      rw [hge]
      simp [hm]
    have hbeq : (c.command.head? == some "shell") = false := by
      simpa using hcmd
    rw [hn] at hgw
    simp [pipf_main, hv, is_pipenv_venv_active_eq_false, hn, truthy_some s hs,
      dispatch, hbeq, forwardBranch, hgw]
  · intro htn _hact hpip
    have hbody : pipf_main c =
        Event.parseArgs ::
        (if !(is_pipenv_venv_active c.environ) && !(truthy c.name) then
           if c.pipfileInCwd then Event.warnPipfile :: dispatch c true
           else [Event.raiseExc "EnvironmentError"]
         else dispatch c false) := by
      rw [pipf_main, hv]
      simp
    rw [hbody, is_pipenv_venv_active_eq_false, htn, hpip]
    simp only [Bool.not_false, Bool.and_self, if_true]
    rw [dispatch, htn]
    simp [forwardBranch]

/-- Invocation `pipf -n foo install requests` with a unique matching environment. -/
def c6_cfg : Config :=
  { environ := fun _ => none
    rootDirs := ["foo-8a7b"]
    markers := fun p => if p = "foo-8a7b" then some "/home/u/proj\n" else none
    pipfileInCwd := false
    name := some "foo"
    command := ["install", "requests"]
    childStatus := none }

/-- Invocation `pipf install requests` from a project directory with a `Pipfile`. -/
def c6_cfg2 : Config :=
  { c6_cfg with name := none, pipfileInCwd := true }

/-- Witness for C6: both the named forwarding case (cwd is the marker
line) and the Pipfile fall-back case (cwd unchanged). -/
theorem forward_branch_runs_pipenv_witness :
    pipf_main c6_cfg = [Event.parseArgs, Event.globRoot, Event.readMarker "foo-8a7b",
      Event.runProc ["pipenv", "install", "requests"] (some (readline "/home/u/proj\n"))] ∧
    pipf_main c6_cfg2 = [Event.parseArgs, Event.warnPipfile,
      Event.runProc ["pipenv", "install", "requests"] none] :=
  ⟨(forward_branch_runs_pipenv c6_cfg "foo" "foo-8a7b" "/home/u/proj\n"
      (by decide)).1 rfl (by decide) (by decide) (by decide) (by decide) (by decide),
   (forward_branch_runs_pipenv c6_cfg2 "" "" "" (by decide)).2
      (by decide) (is_pipenv_venv_active_eq_false _) rfl⟩

/-! ### C8 — the interactive branch closes the pty and exits with the
child's status -/

/-- C8.  When the interactive-shell branch runs to completion of the
interactive relay (unique environment match, child exit status `n`),
the child pseudo-terminal is closed and the process terminates with
exactly the child subshell's own exit status as its exit code: the run
ends `... interact, closePty, restoreEnv, exitWith n`. -/
theorem shell_branch_closes_and_exits (c : Config) (s p : String) (n : Nat)
    (hv : truthy (getenv c.environ "PIPENV_VENV_IN_PROJECT") = false)
    (hcmd : c.command.head? = some "shell")
    (hn : c.name = some s) (hs : s ≠ "") (_hg : globLiteral s = true)
    (hfilter : c.rootDirs.filter (fun d => beginsWith s d) = [p])
    (hstatus : c.childStatus = some n) :
    pipf_main c = [Event.parseArgs,
      Event.setEnvVar "PIPENV_ACTIVE" "1", Event.popEnvVar "PIP_SHIMS_BASE_MODULE",
      Event.snapshotEnv, Event.spawnShell, Event.globRoot,
      Event.sendline ("source " ++ p ++ "/bin/activate"),
      Event.setSigwinchHandler, Event.interact, Event.closePty,
      Event.restoreEnv, Event.exitWith n] := by
  have hge : get_env_dir c.rootDirs
      (popItem (setItem c.environ "PIPENV_ACTIVE" "1") "PIP_SHIMS_BASE_MODULE")
      c.name = ([Event.globRoot], Outcome.ok (PathVal.path p)) := by
    unfold get_env_dir
    rw [hn, truthy_some s hs]
    simp [hfilter]
  have hbeq : (c.command.head? == some "shell") = true := by
    simp [hcmd]
  have hsb : shellBranch c = [Event.setEnvVar "PIPENV_ACTIVE" "1",
      Event.popEnvVar "PIP_SHIMS_BASE_MODULE", Event.snapshotEnv, Event.spawnShell,
      Event.globRoot, Event.sendline ("source " ++ p ++ "/bin/activate"),
      Event.setSigwinchHandler, Event.interact, Event.closePty,
      Event.restoreEnv, Event.exitWith n] := by
    unfold shellBranch
    rw [hge]
    simp [pyStrOfPath, sys_exit_code, hstatus]
  simp [pipf_main, hv, is_pipenv_venv_active_eq_false, hn, truthy_some s hs,
    dispatch, hbeq, hsb]

/-- Invocation `pipf -n foo shell` with a unique match; the subshell exits with 3. -/
def c8_cfg : Config :=
  { environ := fun _ => none
    rootDirs := ["foo-8a7b"]
    markers := fun _ => none
    pipfileInCwd := false
    name := some "foo"
    command := ["shell"]
    childStatus := some 3 }

/-- Witness for C8. -/
theorem shell_branch_closes_and_exits_witness :
    pipf_main c8_cfg = [Event.parseArgs,
      Event.setEnvVar "PIPENV_ACTIVE" "1", Event.popEnvVar "PIP_SHIMS_BASE_MODULE",
      Event.snapshotEnv, Event.spawnShell, Event.globRoot,
      Event.sendline ("source " ++ "foo-8a7b" ++ "/bin/activate"),
      Event.setSigwinchHandler, Event.interact, Event.closePty,
      Event.restoreEnv, Event.exitWith 3] :=
  shell_branch_closes_and_exits c8_cfg "foo" "foo-8a7b" 3
    (by decide) rfl rfl (by decide) (by decide) (by decide) rfl

end Pipf
